import Mathlib

/-!
Verification of the serial-port plugin core (registry, lifecycle commands,
background listener, discovery) against a shallow embedding of
`src/desktop_api.rs`, `src/state.rs` and `src/error.rs`.

The underlying OS serial transport is modelled by the repository's own test
mock (`src/tests/serial_test.rs`, `MockSerialPort`): a loopback byte queue
where `write` appends bytes and `read` drains them, returning `TimedOut`
when the queue is empty.  Fallible external effects (channel sends, thread
joins, OS open, process spawning) are modelled by explicit oracles.
-/

namespace SerialPlugin

/-- Number of data bits (from `state.rs`, `DataBits`). -/
inductive DataBits
  | five | six | seven | eight
deriving DecidableEq, Repr

/-- Flow-control mode (from `state.rs`, `FlowControl`). -/
inductive FlowControl
  | none | software | hardware
deriving DecidableEq, Repr

/-- Parity mode (from `state.rs`, `Parity`). -/
inductive Parity
  | none | odd | even
deriving DecidableEq, Repr

/-- Number of stop bits (from `state.rs`, `StopBits`). -/
inductive StopBits
  | one | two
deriving DecidableEq, Repr

/-- Buffer selector for `clear_buffer` (from `state.rs`, `ClearBuffer`). -/
inductive ClearBuffer
  | input | output | all
deriving DecidableEq, Repr

/-- The plugin error type (from `error.rs`, `Error`): IO error, plain string
message, or serial-port driver error, each carrying a message string. -/
inductive Error
  | io (msg : String)
  | string (msg : String)
  | serialPort (msg : String)
deriving DecidableEq, Repr

instance {ε α : Type} [DecidableEq ε] [DecidableEq α] :
    DecidableEq (Except ε α) := fun x y =>
  match x, y with
  | .error a, .error b =>
      if h : a = b then isTrue (congrArg Except.error h)
      else isFalse (fun hc => h (Except.error.inj hc))
  | .ok a, .ok b =>
      if h : a = b then isTrue (congrArg Except.ok h)
      else isFalse (fun hc => h (Except.ok.inj hc))
  | .error _, .ok _ => isFalse (fun hc => Except.noConfusion hc)
  | .ok _, .error _ => isFalse (fun hc => Except.noConfusion hc)

/-- The full line configuration a port is opened with (the builder chain in
`desktop_api.rs::open`). -/
structure PortConfig where
  baudRate : Nat
  dataBits : DataBits
  flowControl : FlowControl
  parity : Parity
  stopBits : StopBits
  timeoutMs : Nat
deriving DecidableEq, Repr

/-- The mock serial transport, mirroring `tests/serial_test.rs::MockSerialPort`:
line settings plus a single loopback byte queue (`buffer`) that `write`
appends to and `read` drains. -/
structure MockPort where
  config : PortConfig
  buffer : List UInt8
deriving DecidableEq, Repr

/-- `read` on the mock transport (mirrors `MockSerialPort::read`): `none`
models the `TimedOut` error returned when the queue is empty; otherwise up to
`bufLen` bytes are taken from the front of the queue. -/
def MockPort.readBytes (p : MockPort) (bufLen : Nat) :
    Option (List UInt8 × MockPort) :=
  if p.buffer.isEmpty then none
  else some (p.buffer.take bufLen, { p with buffer := p.buffer.drop bufLen })

/-- `write` on the mock transport (mirrors `MockSerialPort::write`): appends
the bytes to the queue and reports the full length as written. -/
def MockPort.writeBytes (p : MockPort) (bs : List UInt8) : Nat × MockPort :=
  (bs.length, { p with buffer := p.buffer ++ bs })

/-- `set_timeout` on the mock transport. -/
def MockPort.setTimeoutMs (p : MockPort) (t : Nat) : MockPort :=
  { p with config := { p.config with timeoutMs := t } }

/-- The sender half of the listener cancellation channel
(`std::sync::mpsc::Sender<usize>` in `state.rs::SerialportInfo`); the oracle
`sendFails` says whether `send(1)` fails (receiver already dropped). -/
structure ChannelSender where
  sendFails : Bool
deriving DecidableEq, Repr

/-- The listener thread's join handle (`JoinHandle<()>` in
`state.rs::SerialportInfo`); the oracle `joinFails` says whether `join()`
reports a panic. -/
structure ThreadHandle where
  joinFails : Bool
deriving DecidableEq, Repr

/-- Per-port registry record (from `state.rs::SerialportInfo`): the open
handle plus the optional cancellation sender and listener thread handle. -/
structure SerialportInfo where
  serialport : MockPort
  sender : Option ChannelSender
  threadHandle : Option ThreadHandle
deriving DecidableEq, Repr

/-- The port registry (`HashMap<String, SerialportInfo>` in
`desktop_api.rs::SerialPort`), modelled as an association list with at most
one live binding per key (lookups take the first). -/
abbrev Registry := List (String × SerialportInfo)

/-- Association-list lookup (`HashMap::get`/`get_mut` on the key); used for
the registry and for the string-valued attribute maps of port discovery. -/
def lookupReg : List (String × β) → String → Option β
  | [], _ => none
  | (k, v) :: rest, path => if k = path then some v else lookupReg rest path

/-- Association-list removal (`HashMap::remove`): drops every binding of the
key. -/
def removeReg : List (String × β) → String → List (String × β)
  | [], _ => []
  | (k, v) :: rest, path =>
      if k = path then removeReg rest path else (k, v) :: removeReg rest path

/-- In-place update of the record found at a key (the effect of mutating
through `HashMap::get_mut`). -/
def updateReg : List (String × β) → String → β → List (String × β)
  | [], _, _ => []
  | (k, v) :: rest, path, newInfo =>
      if k = path then (k, newInfo) :: rest
      else (k, v) :: updateReg rest path newInfo

/-- Registry insertion (`HashMap::insert`): replaces any existing binding. -/
def insertReg (regs : List (String × β)) (path : String) (info : β) :
    List (String × β) :=
  (path, info) :: removeReg regs path

/-- The `NotFound` error produced by `desktop_api.rs::get_serialport`. -/
def notFoundErr (path : String) : Error :=
  .string ("Port '" ++ path ++ "' not found")

/-- The `NotFound` error produced by `desktop_api.rs::close`. -/
def notOpenErr (path : String) : Error :=
  .string ("Serial port " ++ path ++ " is not open!")

/-- `desktop_api.rs::get_serialport`: lock the registry, look the port up
(`NotFound` if absent), run the closure against the record; any mutation the
closure performed persists whether or not it returns an error. -/
def getSerialport (regs : Registry) (path : String)
    (f : SerialportInfo → Except Error α × SerialportInfo) :
    Except Error α × Registry :=
  match lookupReg regs path with
  | Option.none => (.error (notFoundErr path), regs)
  | some info =>
      let r := f info
      (r.1, updateReg regs path r.2)

/-- The builder chain of `desktop_api.rs::open`: each omitted configuration
argument is defaulted (`Eight` data bits, `None` flow control, `None` parity,
`One` stop bit, 200 ms timeout). -/
def defaultedConfig (baudRate : Nat) (dataBits : Option DataBits)
    (flowControl : Option FlowControl) (parity : Option Parity)
    (stopBits : Option StopBits) (timeout : Option Nat) : PortConfig :=
  { baudRate := baudRate
    dataBits := dataBits.getD DataBits.eight
    flowControl := flowControl.getD FlowControl.none
    parity := parity.getD Parity.none
    stopBits := stopBits.getD StopBits.one
    timeoutMs := timeout.getD 200 }

/-- The record `open` inserts for a freshly opened port: no listener. -/
def freshOpenInfo (port : MockPort) : SerialportInfo :=
  { serialport := port, sender := none, threadHandle := none }

/-- `desktop_api.rs::open`: force-close any existing entry for the path
(signalling and joining its listener, errors ignored), then open a fresh
handle through the OS driver (`osOpen` oracle) with the defaulted
configuration, and insert a fresh record with no listener. -/
def openPort (regs : Registry) (path : String) (baudRate : Nat)
    (dataBits : Option DataBits) (flowControl : Option FlowControl)
    (parity : Option Parity) (stopBits : Option StopBits)
    (timeout : Option Nat)
    (osOpen : PortConfig → Except String MockPort) :
    Except Error Unit × Registry :=
  match osOpen (defaultedConfig baudRate dataBits flowControl parity stopBits
      timeout) with
  | .error e =>
      (.error (.string ("Failed to open serial port: " ++ e)),
       removeReg regs path)
  | .ok port =>
      (.ok (), insertReg (removeReg regs path) path (freshOpenInfo port))

/-- The OS driver of the mock environment: opening always succeeds and yields
a fresh loopback port carrying exactly the requested configuration. -/
def mockOsOpen (cfg : PortConfig) : Except String MockPort :=
  .ok { config := cfg, buffer := [] }

/-- `desktop_api.rs::cancel_read`: send the cancellation signal if a sender is
present (propagating a send failure), then clear the sender field only — the
thread handle is left untouched. -/
def cancelReadBody (info : SerialportInfo) : Except Error Unit × SerialportInfo :=
  match info.sender with
  | some s =>
      if s.sendFails then
        (.error (.string "Failed to cancel serial port data reading: send error"),
         info)
      else (.ok (), { info with sender := none })
  | Option.none => (.ok (), { info with sender := none })

/-- `desktop_api.rs::cancel_read` at the registry level. -/
def cancelRead (regs : Registry) (path : String) : Except Error Unit × Registry :=
  getSerialport regs path cancelReadBody

/-- `desktop_api.rs::stop_listening`: send the cancellation signal if present
(propagating a send failure), then clear both the sender and the thread
handle. -/
def stopListeningBody (info : SerialportInfo) :
    Except Error Unit × SerialportInfo :=
  match info.sender with
  | some s =>
      if s.sendFails then
        (.error (.string "Failed to cancel serial port data reading: send error"),
         info)
      else (.ok (), { info with sender := none, threadHandle := none })
  | Option.none => (.ok (), { info with sender := none, threadHandle := none })

/-- `desktop_api.rs::stop_listening` at the registry level. -/
def stopListening (regs : Registry) (path : String) :
    Except Error Unit × Registry :=
  getSerialport regs path stopListeningBody

/-- Second half of `desktop_api.rs::start_listening`: clone the handle
(`cloneFails` oracle), set the short poll timeout on the clone
(`setTimeoutFails` oracle), then create the cancellation channel, spawn the
listener thread, and store the fresh sender and thread handle. -/
def startListeningSpawn (cloneFails setTimeoutFails : Bool)
    (newSender : ChannelSender) (newHandle : ThreadHandle)
    (info : SerialportInfo) : Except Error Unit × SerialportInfo :=
  if cloneFails then
    (.error (.string "Failed to clone serial port"), info)
  else if setTimeoutFails then
    (.error (.string "Failed to set short timeout"), info)
  else
    (.ok (), { info with sender := some newSender, threadHandle := some newHandle })

/-- `desktop_api.rs::start_listening` (registry effects): if a listener is
already active (sender present), signal it (propagating a send failure),
clear the sender, take and join the old thread handle (join errors only
logged), then proceed to clone-and-spawn. -/
def startListeningBody (cloneFails setTimeoutFails : Bool)
    (newSender : ChannelSender) (newHandle : ThreadHandle)
    (info : SerialportInfo) : Except Error Unit × SerialportInfo :=
  match info.sender with
  | some s =>
      if s.sendFails then
        (.error (.string "Failed to stop existing listener"), info)
      else
        startListeningSpawn cloneFails setTimeoutFails newSender newHandle
          { info with sender := none, threadHandle := none }
  | Option.none =>
      startListeningSpawn cloneFails setTimeoutFails newSender newHandle info

/-- `desktop_api.rs::start_listening` at the registry level. -/
def startListening (regs : Registry) (path : String)
    (cloneFails setTimeoutFails : Bool) (newSender : ChannelSender)
    (newHandle : ThreadHandle) : Except Error Unit × Registry :=
  getSerialport regs path
    (startListeningBody cloneFails setTimeoutFails newSender newHandle)

/-- The join step shared by `close` and `force_close`: join the listener
thread if a handle is present, propagating a join failure. The entry has
already been removed from the registry at this point. -/
def closeJoin (regs1 : Registry) (info : SerialportInfo) :
    Except Error Unit × Registry :=
  match info.threadHandle with
  | some h =>
      if h.joinFails then (.error (.string "Failed to join thread"), regs1)
      else (.ok (), regs1)
  | Option.none => (.ok (), regs1)

/-- The teardown of a removed entry shared by `close` and `force_close`:
signal the listener (propagating a send failure), then join its thread. -/
def closeFound (regs1 : Registry) (info : SerialportInfo) :
    Except Error Unit × Registry :=
  match info.sender with
  | some s =>
      if s.sendFails then
        (.error (.string "Failed to cancel serial port data reading: send error"),
         regs1)
      else closeJoin regs1 info
  | Option.none => closeJoin regs1 info

/-- `desktop_api.rs::close`: remove the entry (error if absent), then signal
the listener (propagating a send failure) and join its thread (propagating a
join failure); the entry stays removed on every path. -/
def closePort (regs : Registry) (path : String) : Except Error Unit × Registry :=
  match lookupReg regs path with
  | Option.none => (.error (notOpenErr path), regs)
  | some info => closeFound (removeReg regs path) info

/-- `desktop_api.rs::force_close`: like `close`, but a missing port is a
no-op success. -/
def forceClose (regs : Registry) (path : String) :
    Except Error Unit × Registry :=
  match lookupReg regs path with
  | Option.none => (.ok (), regs)
  | some info => closeFound (removeReg regs path) info

/-- The per-port failures recorded by one iteration of the `close_all` drain
loop: a send failure (when a sender is present) followed by a join failure
(when a thread handle is present). -/
def recordCloseErrors (path : String) (info : SerialportInfo) : List String :=
  (match info.sender with
   | some s => if s.sendFails then ["Port " ++ path ++ ": send error"] else []
   | Option.none => []) ++
  (match info.threadHandle with
   | some h =>
       if h.joinFails then ["Port " ++ path ++ " thread join: join error"]
       else []
   | Option.none => [])

/-- The `close_all` drain loop: walk every entry, accumulating each entry's
failures, never stopping early. -/
def closeAllLoop : Registry → List String → List String
  | [], errs => errs
  | (path, info) :: rest, errs =>
      closeAllLoop rest (errs ++ recordCloseErrors path info)

/-- `desktop_api.rs::close_all`: drain the whole registry, collect every
per-port failure, and return success iff none occurred, otherwise one
aggregate error joining them all. -/
def closeAll (regs : Registry) : Except Error Unit × Registry :=
  let errs := closeAllLoop regs []
  (if errs.isEmpty then .ok ()
   else .error (.string (String.intercalate ", " errs)), [])

/-- The spec's per-record invariant: the cancellation sender is present iff
the listener thread handle is present. -/
def RecordInv (info : SerialportInfo) : Prop :=
  info.sender.isSome = info.threadHandle.isSome

instance (info : SerialportInfo) : Decidable (RecordInv info) :=
  inferInstanceAs (Decidable (info.sender.isSome = info.threadHandle.isSome))

/-- The invariant over a whole registry state. -/
def RegistryInv (regs : Registry) : Prop :=
  ∀ pr ∈ regs, RecordInv pr.2

instance (regs : Registry) : Decidable (RegistryInv regs) :=
  decidable_of_iff (∀ pr ∈ regs, RecordInv pr.2) Iff.rfl

/-- The command-surface operations of claim C2 other than `cancel_read`, with
their environment oracles. -/
inductive AdminOp
  | openOp (path : String) (baudRate : Nat) (dataBits : Option DataBits)
      (flowControl : Option FlowControl) (parity : Option Parity)
      (stopBits : Option StopBits) (timeout : Option Nat)
      (osOpen : PortConfig → Except String MockPort)
  | startListeningOp (path : String) (cloneFails setTimeoutFails : Bool)
      (newSender : ChannelSender) (newHandle : ThreadHandle)
  | stopListeningOp (path : String)
  | closeOp (path : String)
  | forceCloseOp (path : String)
  | closeAllOp

/-- Dispatch of an `AdminOp` against the registry. -/
def applyAdminOp : AdminOp → Registry → Except Error Unit × Registry
  | .openOp path baud db fc pa sb t os, regs => openPort regs path baud db fc pa sb t os
  | .startListeningOp path cf stf ns nh, regs => startListening regs path cf stf ns nh
  | .stopListeningOp path, regs => stopListening regs path
  | .closeOp path, regs => closePort regs path
  | .forceCloseOp path, regs => forceClose regs path
  | .closeAllOp, regs => closeAll regs

/-- The UTF-8 byte sequence of a string (Rust `str::as_bytes`). -/
def stringBytes (s : String) : List UInt8 :=
  s.data.flatMap String.utf8EncodeChar

/-- `desktop_api.rs::write`: write the UTF-8 bytes of the string to the
handle, returning the count written. -/
def writeBody (value : String) (info : SerialportInfo) :
    Except Error Nat × SerialportInfo :=
  match info.serialport.writeBytes (stringBytes value) with
  | (n, p) => (.ok n, { info with serialport := p })

/-- `desktop_api.rs::write` at the registry level. -/
def writePort (regs : Registry) (path : String) (value : String) :
    Except Error Nat × Registry :=
  getSerialport regs path (writeBody value)

/-- `desktop_api.rs::write_binary`: write the bytes to the handle, returning
the count written. -/
def writeBinaryBody (value : List UInt8) (info : SerialportInfo) :
    Except Error Nat × SerialportInfo :=
  match info.serialport.writeBytes value with
  | (n, p) => (.ok n, { info with serialport := p })

/-- `desktop_api.rs::write_binary` at the registry level. -/
def writeBinaryPort (regs : Registry) (path : String) (value : List UInt8) :
    Except Error Nat × Registry :=
  getSerialport regs path (writeBinaryBody value)

/-- `desktop_api.rs::read`: set the (defaulted 1000 ms) timeout on the
handle, then perform one read into a buffer of `size` (default 1024) bytes; a
`TimedOut` outcome becomes the "no data received" error.  The Rust code
passes the bytes through `String::from_utf8_lossy`; that decoding is outward
marshaling, so the raw bytes read are returned here. -/
def readBody (timeout size : Option Nat) (info : SerialportInfo) :
    Except Error (List UInt8) × SerialportInfo :=
  let t := timeout.getD 1000
  let port := info.serialport.setTimeoutMs t
  match port.readBytes (size.getD 1024) with
  | Option.none =>
      (.error (.string ("no data received within " ++ toString t ++ " ms")),
       { info with serialport := port })
  | some (bytes, port') => (.ok bytes, { info with serialport := port' })

/-- `desktop_api.rs::read` at the registry level. -/
def readPort (regs : Registry) (path : String) (timeout size : Option Nat) :
    Except Error (List UInt8) × Registry :=
  getSerialport regs path (readBody timeout size)

/-- The accumulation loop of `desktop_api.rs::read_binary`
(`while buffer.len() < target_size && start.elapsed() < timeout`): read a
chunk of the remaining size; a positive read extends the buffer; `TimedOut`
is the timeout error when nothing was accumulated and otherwise ends the
loop; a zero-byte read ends the loop.  `fuel` models the remaining time
budget of the `start.elapsed() < timeout` check (each iteration consumes
one unit; exhaustion is the deadline passing), and `tmsg` is the timeout
value printed in the error message. -/
def readBinaryLoop (tmsg : Nat) : Nat → MockPort → List UInt8 → Nat →
    Except Error (List UInt8) × MockPort
  | fuel, port, acc, target =>
    if acc.length < target then
      match fuel with
      | 0 => (.ok acc, port)
      | fuel' + 1 =>
          match port.readBytes (target - acc.length) with
          | Option.none =>
              if acc.isEmpty then
                (.error (.string ("no data received within " ++ toString tmsg
                   ++ " ms")), port)
              else (.ok acc, port)
          | some (bytes, port') =>
              if 0 < bytes.length then
                readBinaryLoop tmsg fuel' port' (acc ++ bytes) target
              else (.ok acc, port')
    else (.ok acc, port)

/-- `desktop_api.rs::read_binary`: run the accumulation loop with target size
`size` (default 1024) and time budget `timeout` (default 1000 ms). -/
def readBinaryBody (timeout size : Option Nat) (info : SerialportInfo) :
    Except Error (List UInt8) × SerialportInfo :=
  let target := size.getD 1024
  let t := timeout.getD 1000
  match readBinaryLoop t t info.serialport [] target with
  | (r, port') => (r, { info with serialport := port' })

/-- `desktop_api.rs::read_binary` at the registry level. -/
def readBinaryPort (regs : Registry) (path : String)
    (timeout size : Option Nat) : Except Error (List UInt8) × Registry :=
  getSerialport regs path (readBinaryBody timeout size)

/-- One character of the event-path sanitization
`path.replace(".", "-").replace("/", "-")` in `start_listening`: replacing a
single-character pattern acts independently on each character. -/
def sanitizeChar (c : Char) : Char :=
  if c = '.' then '-' else if c = '/' then '-' else c

/-- The sanitized event path derived from the port id in `start_listening`. -/
def eventPath (path : String) : String :=
  String.mk (path.toList.map sanitizeChar)

/-- The data-event name `format!("plugin-serialplugin-read-{}", event_path)`. -/
def readEventName (path : String) : String :=
  String.mk ("plugin-serialplugin-read-".toList ++ (eventPath path).toList)

/-- The disconnect-event name
`format!("plugin-serialplugin-disconnected-{}", event_path)`. -/
def disconnectedEventName (path : String) : String :=
  String.mk ("plugin-serialplugin-disconnected-".toList
    ++ (eventPath path).toList)

/-- Port-type constant from `state.rs`. -/
def UNKNOWN : String := "Unknown"

/-- Port-type constant from `state.rs`. -/
def USB : String := "USB"

/-- Port-type constant from `state.rs`. -/
def BLUETOOTH : String := "Bluetooth"

/-- Port-type constant from `state.rs`. -/
def PCI : String := "PCI"

/-- Driver-reported port metadata (`serialport::SerialPortType`). -/
inductive SerialPortType
  | usbPort (vid pid : Nat) (serialNumber manufacturer product : Option String)
  | bluetoothPort
  | pciPort
  | unknown
deriving DecidableEq, Repr

/-- `desktop_api.rs::get_port_info`: an attribute map that starts with all
six keys (`type`, `vid`, `pid`, `serial_number`, `manufacturer`, `product`)
set to "Unknown", then overridden from the driver metadata where known. -/
def getPortInfo (port : SerialPortType) : List (String × String) :=
  let base :=
    insertReg (insertReg (insertReg (insertReg (insertReg (insertReg []
      "type" UNKNOWN) "vid" UNKNOWN) "pid" UNKNOWN) "serial_number" UNKNOWN)
      "manufacturer" UNKNOWN) "product" UNKNOWN
  match port with
  | .usbPort vid pid sn mf pd =>
      insertReg (insertReg (insertReg (insertReg (insertReg (insertReg base
        "type" USB) "vid" (toString vid)) "pid" (toString pid))
        "serial_number" (sn.getD UNKNOWN)) "manufacturer" (mf.getD UNKNOWN))
        "product" (pd.getD UNKNOWN)
  | .bluetoothPort => insertReg base "type" BLUETOOTH
  | .pciPort => insertReg base "type" PCI
  | .unknown => insertReg base "type" UNKNOWN

/-- All five metadata keys of `get_port_info` left at their "Unknown"
default (the attributes a non-USB port cannot resolve). -/
def MetadataUnknown (t : SerialPortType) : Prop :=
  lookupReg (getPortInfo t) "vid" = some UNKNOWN
  ∧ lookupReg (getPortInfo t) "pid" = some UNKNOWN
  ∧ lookupReg (getPortInfo t) "serial_number" = some UNKNOWN
  ∧ lookupReg (getPortInfo t) "manufacturer" = some UNKNOWN
  ∧ lookupReg (getPortInfo t) "product" = some UNKNOWN

instance (t : SerialPortType) : Decidable (MetadataUnknown t) :=
  decidable_of_iff
    (lookupReg (getPortInfo t) "vid" = some UNKNOWN
      ∧ lookupReg (getPortInfo t) "pid" = some UNKNOWN
      ∧ lookupReg (getPortInfo t) "serial_number" = some UNKNOWN
      ∧ lookupReg (getPortInfo t) "manufacturer" = some UNKNOWN
      ∧ lookupReg (getPortInfo t) "product" = some UNKNOWN) Iff.rfl

/-- `desktop_api.rs::available_ports`:
`serialport::available_ports().unwrap_or_else(|_| vec![])` — the driver
enumeration's port list, or the empty list on enumeration error — with each
port mapped to `get_port_info` and inserted into the result map.  (The source
sorts the list by port name before inserting into an unordered `HashMap`,
which does not affect the mapping's content.) -/
def availablePorts
    (enumResult : Except String (List (String × SerialPortType))) :
    Except Error (List (String × List (String × String))) :=
  let list := match enumResult with
    | .error _ => []
    | .ok l => l
  .ok (list.foldl (fun acc p => insertReg acc p.1 (getPortInfo p.2)) [])

/-- Result of code that may abort the process: `.panics` models a Rust
`panic!` — here the `.expect(...)` on a failed `Command` spawn. -/
inductive ExecResult (α : Type)
  | panics
  | returns (v : α)
deriving DecidableEq, Repr

/-- Rust `str::starts_with` over characters. -/
def isPrefixList : List Char → List Char → Bool
  | [], _ => true
  | _ :: _, [] => false
  | a :: as, b :: bs => a = b && isPrefixList as bs

/-- Rust `str::contains` (substring occurrence) over characters. -/
def isSubstrList (pat : List Char) : List Char → Bool
  | [] => pat.isEmpty
  | c :: rest => isPrefixList pat (c :: rest) || isSubstrList pat rest

/-- Rust `str::contains`. -/
def containsSub (line pat : String) : Bool :=
  isSubstrList pat.toList line.toList

/-- Rust `str::starts_with`. -/
def startsWithStr (line pre : String) : Bool :=
  isPrefixList pre.toList line.toList

/-- Split at every newline character. -/
def splitLinesAux : List Char → List Char → List String
  | [], acc => [String.mk acc.reverse]
  | c :: rest, acc =>
      if c = '\n' then String.mk acc.reverse :: splitLinesAux rest []
      else splitLinesAux rest (c :: acc)

/-- Rust `str::lines`: split at newlines, without a final empty line. -/
def rustLines (s : String) : List String :=
  let ps := splitLinesAux s.toList []
  if ps.getLast? = some "" then ps.dropLast else ps

/-- One line of `lsusb` output in `available_ports_direct` (Linux): a line
mentioning "Serial" or "USB" is recorded under the whole line with only a
`type` attribute. -/
def usbLineStep (acc : List (String × List (String × String)))
    (line : String) : List (String × List (String × String)) :=
  if containsSub line "Serial" || containsSub line "USB" then
    insertReg acc line [("type", USB)]
  else acc

/-- First check of the `ls /dev` loop body in `available_ports_direct`
(Linux): `ttyUSB*` and `ttyS*` lines are recorded as USB resp. COM. -/
def devStep1 (line : String) (acc : List (String × List (String × String))) :
    List (String × List (String × String)) :=
  if startsWithStr line "ttyUSB" || startsWithStr line "ttyS" then
    insertReg acc ("/dev/" ++ line)
      [("type", if startsWithStr line "ttyUSB" then USB else "COM")]
  else acc

/-- Second check: `rfcomm*` lines are recorded as Bluetooth. -/
def devStep2 (line : String) (acc : List (String × List (String × String))) :
    List (String × List (String × String)) :=
  if startsWithStr line "rfcomm" then
    insertReg acc ("/dev/" ++ line) [("type", BLUETOOTH)]
  else acc

/-- Third check: `ttyACM*` lines are recorded as Virtual. -/
def devStep3 (line : String) (acc : List (String × List (String × String))) :
    List (String × List (String × String)) :=
  if startsWithStr line "ttyACM" then
    insertReg acc ("/dev/" ++ line) [("type", "Virtual")]
  else acc

/-- One line of `ls /dev` output in `available_ports_direct` (Linux): the
three sequential checks of the loop body; each port is recorded with only a
`type` attribute. -/
def devLineStep (acc : List (String × List (String × String)))
    (line : String) : List (String × List (String × String)) :=
  devStep3 line (devStep2 line (devStep1 line acc))

/-- `desktop_api.rs::available_ports_direct` (the Linux branch): spawn
`lsusb` and `ls /dev` (`Option.none` models a spawn failure, which the code
turns into a panic via `.expect(...)`); on success the outputs are parsed
line by line and the function returns `Ok` unconditionally. -/
def availablePortsDirect (lsusbOut devOut : Option String) :
    ExecResult (Except Error (List (String × List (String × String)))) :=
  match lsusbOut with
  | Option.none => .panics
  | some usb =>
      match devOut with
      | Option.none => .panics
      | some dev =>
          .returns (.ok
            ((rustLines dev).foldl devLineStep
              ((rustLines usb).foldl usbLineStep [])))

/-- Outcome of the listener's non-blocking poll of its cancellation channel
(`rx.try_recv()`): a cancellation signal, a dropped sender (registry entry
torn down), or nothing. -/
inductive RecvOutcome
  | gotSignal
  | senderDropped
  | empty
deriving DecidableEq, Repr

/-- Outcome of the bounded serial read in one listener iteration. -/
inductive ReadOutcome
  | ok (bytes : List UInt8)
  | timedOut
  | ioError (msg : String)
deriving DecidableEq, Repr

/-- The observable effect of one iteration of the listener loop. -/
structure IterResult where
  emittedRead : Option (List UInt8)
  emittedDisconnect : Bool
  combined : List UInt8
  exitLoop : Bool
deriving DecidableEq, Repr

/-- The windowed flush at the end of a listener iteration
(`desktop_api.rs` lines 491-513): when the elapsed-time window has passed, a
zero-length accumulation is skipped (`continue`, no event) and a non-empty
accumulation is emitted as one read event and then cleared. -/
def flushStep (c : List UInt8) (windowElapsed : Bool) : IterResult :=
  if windowElapsed then
    if c.length = 0 then ⟨none, false, c, false⟩
    else ⟨some c, false, [], false⟩
  else ⟨none, false, c, false⟩

/-- One iteration of the background listener loop spawned by
`start_listening` (`desktop_api.rs` lines 452-514): poll the cancellation
channel (signal → silent exit; dropped sender → disconnect event and exit),
read (fatal I/O error → disconnect event and exit; `TimedOut` → nothing;
success → append the bytes to the accumulation), then flush. -/
def listenIteration (combined : List UInt8) (recv : RecvOutcome)
    (readRes : ReadOutcome) (windowElapsed : Bool) : IterResult :=
  match recv with
  | .gotSignal => ⟨none, false, combined, true⟩
  | .senderDropped => ⟨none, true, combined, true⟩
  | .empty =>
      match readRes with
      | .ioError _ => ⟨none, true, combined, true⟩
      | .timedOut => flushStep combined windowElapsed
      | .ok bytes => flushStep (combined ++ bytes) windowElapsed

/-- `desktop_api.rs::set_baud_rate` body against the mock handle (mirrors
`MockSerialPort::set_baud_rate`: store and succeed). -/
def setBaudRateBody (b : Nat) (info : SerialportInfo) :
    Except Error Unit × SerialportInfo :=
  (.ok (), { info with serialport :=
    { info.serialport with config :=
      { info.serialport.config with baudRate := b } } })

/-- `desktop_api.rs::set_data_bits` body against the mock handle. -/
def setDataBitsBody (d : DataBits) (info : SerialportInfo) :
    Except Error Unit × SerialportInfo :=
  (.ok (), { info with serialport :=
    { info.serialport with config :=
      { info.serialport.config with dataBits := d } } })

/-- `desktop_api.rs::set_flow_control` body against the mock handle. -/
def setFlowControlBody (f : FlowControl) (info : SerialportInfo) :
    Except Error Unit × SerialportInfo :=
  (.ok (), { info with serialport :=
    { info.serialport with config :=
      { info.serialport.config with flowControl := f } } })

/-- `desktop_api.rs::set_parity` body against the mock handle. -/
def setParityBody (p : Parity) (info : SerialportInfo) :
    Except Error Unit × SerialportInfo :=
  (.ok (), { info with serialport :=
    { info.serialport with config :=
      { info.serialport.config with parity := p } } })

/-- `desktop_api.rs::set_stop_bits` body against the mock handle. -/
def setStopBitsBody (s : StopBits) (info : SerialportInfo) :
    Except Error Unit × SerialportInfo :=
  (.ok (), { info with serialport :=
    { info.serialport with config :=
      { info.serialport.config with stopBits := s } } })

/-- `desktop_api.rs::set_timeout` body against the mock handle. -/
def setTimeoutBody (t : Nat) (info : SerialportInfo) :
    Except Error Unit × SerialportInfo :=
  (.ok (), { info with serialport := info.serialport.setTimeoutMs t })

/-- `desktop_api.rs::write_request_to_send` body (the mock accepts any
level and succeeds). -/
def writeRtsBody (_level : Bool) (info : SerialportInfo) :
    Except Error Unit × SerialportInfo :=
  (.ok (), info)

/-- `desktop_api.rs::write_data_terminal_ready` body. -/
def writeDtrBody (_level : Bool) (info : SerialportInfo) :
    Except Error Unit × SerialportInfo :=
  (.ok (), info)

/-- `desktop_api.rs::read_clear_to_send` body (the mock reports `true`). -/
def readCtsBody (info : SerialportInfo) :
    Except Error Bool × SerialportInfo :=
  (.ok true, info)

/-- `desktop_api.rs::read_data_set_ready` body. -/
def readDsrBody (info : SerialportInfo) :
    Except Error Bool × SerialportInfo :=
  (.ok true, info)

/-- `desktop_api.rs::read_ring_indicator` body. -/
def readRiBody (info : SerialportInfo) :
    Except Error Bool × SerialportInfo :=
  (.ok true, info)

/-- `desktop_api.rs::read_carrier_detect` body. -/
def readCdBody (info : SerialportInfo) :
    Except Error Bool × SerialportInfo :=
  (.ok true, info)

/-- `desktop_api.rs::bytes_to_read` body (the mock reports the queue
length). -/
def bytesToReadBody (info : SerialportInfo) :
    Except Error Nat × SerialportInfo :=
  (.ok info.serialport.buffer.length, info)

/-- `desktop_api.rs::bytes_to_write` body (the mock reports 0). -/
def bytesToWriteBody (info : SerialportInfo) :
    Except Error Nat × SerialportInfo :=
  (.ok 0, info)

/-- `desktop_api.rs::clear_buffer` body (the mock's `clear` succeeds without
observable effect). -/
def clearBufferBody (_sel : ClearBuffer) (info : SerialportInfo) :
    Except Error Unit × SerialportInfo :=
  (.ok (), info)

/-- `desktop_api.rs::set_break` body. -/
def setBreakBody (info : SerialportInfo) :
    Except Error Unit × SerialportInfo :=
  (.ok (), info)

/-- `desktop_api.rs::clear_break` body. -/
def clearBreakBody (info : SerialportInfo) :
    Except Error Unit × SerialportInfo :=
  (.ok (), info)

/-- The value returned by a command, as one sum type so that every per-id
command can be dispatched uniformly. -/
inductive CmdOut
  | unitOut
  | countOut (n : Nat)
  | bytesOut (bs : List UInt8)
  | flagOut (b : Bool)
  | numOut (n : Nat)
deriving DecidableEq, Repr

/-- Every command of the surface that references a port id, other than
`open` and `force_close` (the claim's exceptions); the constructors carry
each command's non-id arguments and environment oracles. -/
inductive Cmd
  | cancelReadCmd
  | closeCmd
  | startListeningCmd (cloneFails setTimeoutFails : Bool)
      (newSender : ChannelSender) (newHandle : ThreadHandle)
  | stopListeningCmd
  | readCmd (timeout size : Option Nat)
  | readBinaryCmd (timeout size : Option Nat)
  | writeCmd (value : String)
  | writeBinaryCmd (value : List UInt8)
  | setBaudRateCmd (b : Nat)
  | setDataBitsCmd (d : DataBits)
  | setFlowControlCmd (f : FlowControl)
  | setParityCmd (p : Parity)
  | setStopBitsCmd (s : StopBits)
  | setTimeoutCmd (t : Nat)
  | writeRtsCmd (level : Bool)
  | writeDtrCmd (level : Bool)
  | readCtsCmd
  | readDsrCmd
  | readRiCmd
  | readCdCmd
  | bytesToReadCmd
  | bytesToWriteCmd
  | clearBufferCmd (sel : ClearBuffer)
  | setBreakCmd
  | clearBreakCmd

/-- Tag a command's typed result into `CmdOut`, leaving errors and the
registry untouched. -/
def tagResult (f : α → CmdOut) :
    Except Error α × Registry → Except Error CmdOut × Registry
  | (.ok a, r) => (.ok (f a), r)
  | (.error e, r) => (.error e, r)

/-- Dispatch of one per-id command against the registry, each branch the
corresponding `desktop_api.rs` operation. -/
def runCmd : Cmd → String → Registry → Except Error CmdOut × Registry
  | .cancelReadCmd, path, regs =>
      tagResult (fun _ => .unitOut) (cancelRead regs path)
  | .closeCmd, path, regs =>
      tagResult (fun _ => .unitOut) (closePort regs path)
  | .startListeningCmd cf stf ns nh, path, regs =>
      tagResult (fun _ => .unitOut) (startListening regs path cf stf ns nh)
  | .stopListeningCmd, path, regs =>
      tagResult (fun _ => .unitOut) (stopListening regs path)
  | .readCmd t sz, path, regs =>
      tagResult (fun bs => .bytesOut bs) (readPort regs path t sz)
  | .readBinaryCmd t sz, path, regs =>
      tagResult (fun bs => .bytesOut bs) (readBinaryPort regs path t sz)
  | .writeCmd v, path, regs =>
      tagResult (fun n => .countOut n) (writePort regs path v)
  | .writeBinaryCmd v, path, regs =>
      tagResult (fun n => .countOut n) (writeBinaryPort regs path v)
  | .setBaudRateCmd b, path, regs =>
      tagResult (fun _ => .unitOut) (getSerialport regs path (setBaudRateBody b))
  | .setDataBitsCmd d, path, regs =>
      tagResult (fun _ => .unitOut) (getSerialport regs path (setDataBitsBody d))
  | .setFlowControlCmd f, path, regs =>
      tagResult (fun _ => .unitOut) (getSerialport regs path (setFlowControlBody f))
  | .setParityCmd p, path, regs =>
      tagResult (fun _ => .unitOut) (getSerialport regs path (setParityBody p))
  | .setStopBitsCmd s, path, regs =>
      tagResult (fun _ => .unitOut) (getSerialport regs path (setStopBitsBody s))
  | .setTimeoutCmd t, path, regs =>
      tagResult (fun _ => .unitOut) (getSerialport regs path (setTimeoutBody t))
  | .writeRtsCmd level, path, regs =>
      tagResult (fun _ => .unitOut) (getSerialport regs path (writeRtsBody level))
  | .writeDtrCmd level, path, regs =>
      tagResult (fun _ => .unitOut) (getSerialport regs path (writeDtrBody level))
  | .readCtsCmd, path, regs =>
      tagResult (fun b => .flagOut b) (getSerialport regs path readCtsBody)
  | .readDsrCmd, path, regs =>
      tagResult (fun b => .flagOut b) (getSerialport regs path readDsrBody)
  | .readRiCmd, path, regs =>
      tagResult (fun b => .flagOut b) (getSerialport regs path readRiBody)
  | .readCdCmd, path, regs =>
      tagResult (fun b => .flagOut b) (getSerialport regs path readCdBody)
  | .bytesToReadCmd, path, regs =>
      tagResult (fun n => .numOut n) (getSerialport regs path bytesToReadBody)
  | .bytesToWriteCmd, path, regs =>
      tagResult (fun n => .numOut n) (getSerialport regs path bytesToWriteBody)
  | .clearBufferCmd sel, path, regs =>
      tagResult (fun _ => .unitOut) (getSerialport regs path (clearBufferBody sel))
  | .setBreakCmd, path, regs =>
      tagResult (fun _ => .unitOut) (getSerialport regs path setBreakBody)
  | .clearBreakCmd, path, regs =>
      tagResult (fun _ => .unitOut) (getSerialport regs path clearBreakBody)

/-- A registry record whose listener is active (both the sender and the
thread handle are present). -/
def listeningInfo : SerialportInfo :=
  { serialport :=
      { config := { baudRate := 9600, dataBits := DataBits.eight
                    flowControl := FlowControl.none, parity := Parity.none
                    stopBits := StopBits.one, timeoutMs := 200 }
        buffer := [] }
    sender := some { sendFails := false }
    threadHandle := some { joinFails := false } }

/-- A registry with one open, listening port, used as the concrete state of
several counterexamples and witnesses. -/
def listeningRegistry : Registry :=
  [("COM1", listeningInfo)]

theorem mem_removeReg {pr : String × β} :
    ∀ {regs : List (String × β)} {path : String},
      pr ∈ removeReg regs path → pr ∈ regs := by
  intro regs
  induction regs with
  | nil => intro path h; simp [removeReg] at h
  | cons hd tl ih =>
      intro path h
      obtain ⟨k, v⟩ := hd
      simp only [removeReg] at h
      by_cases hk : k = path
      · simp [hk] at h
        exact List.mem_cons_of_mem _ (ih h)
      · simp [hk] at h
        rcases h with h | h
        · simp [h]
        · exact List.mem_cons_of_mem _ (ih h)

theorem mem_updateReg {pr : String × β} {info' : β} :
    ∀ {regs : List (String × β)} {path : String},
      pr ∈ updateReg regs path info' → pr ∈ regs ∨ pr.2 = info' := by
  intro regs
  induction regs with
  | nil => intro path h; simp [updateReg] at h
  | cons hd tl ih =>
      intro path h
      obtain ⟨k, v⟩ := hd
      simp only [updateReg] at h
      by_cases hk : k = path
      · simp [hk] at h
        rcases h with h | h
        · right; simp [h]
        · exact Or.inl (List.mem_cons_of_mem _ h)
      · simp [hk] at h
        rcases h with h | h
        · exact Or.inl (by simp [h])
        · rcases ih h with h' | h'
          · exact Or.inl (List.mem_cons_of_mem _ h')
          · exact Or.inr h'

theorem lookupReg_mem {β : Type} :
    ∀ {regs : List (String × β)} {path : String} {info : β},
      lookupReg regs path = some info → (path, info) ∈ regs := by
  intro regs
  induction regs with
  | nil => intro path info h; simp [lookupReg] at h
  | cons hd tl ih =>
      intro path info h
      obtain ⟨k, v⟩ := hd
      simp only [lookupReg] at h
      by_cases hk : k = path
      · simp [hk] at h
        subst hk h
        exact List.mem_cons_self _ _
      · simp [hk] at h
        exact List.mem_cons_of_mem _ (ih h)

theorem registryInv_removeReg {regs : Registry} {path : String}
    (h : RegistryInv regs) : RegistryInv (removeReg regs path) :=
  fun pr hpr => h pr (mem_removeReg hpr)

theorem registryInv_updateReg {regs : Registry} {path : String}
    {info' : SerialportInfo} (h : RegistryInv regs) (h' : RecordInv info') :
    RegistryInv (updateReg regs path info') := by
  intro pr hpr
  rcases mem_updateReg hpr with hmem | heq
  · exact h pr hmem
  · rw [heq]; exact h'

theorem recordInv_startListeningBody {info : SerialportInfo}
    (cf stf : Bool) (ns : ChannelSender) (nh : ThreadHandle)
    (h : RecordInv info) :
    RecordInv (startListeningBody cf stf ns nh info).2 := by
  unfold startListeningBody startListeningSpawn
  cases hs : info.sender with
  | none =>
      cases cf <;> cases stf <;>
        simp_all [RecordInv]
  | some s =>
      cases hsf : s.sendFails <;> cases cf <;> cases stf <;>
        simp_all [RecordInv]

theorem recordInv_stopListeningBody {info : SerialportInfo}
    (h : RecordInv info) : RecordInv (stopListeningBody info).2 := by
  unfold stopListeningBody
  cases hs : info.sender with
  | none => simp [RecordInv]
  | some s =>
      cases hsf : s.sendFails <;> simp_all [RecordInv]

theorem closeJoin_snd (regs1 : Registry) (info : SerialportInfo) :
    (closeJoin regs1 info).2 = regs1 := by
  obtain ⟨sp, s, th⟩ := info
  unfold closeJoin
  cases th with
  | none => rfl
  | some hd =>
      cases hd with
      | mk jf => cases jf <;> rfl

theorem closeFound_snd (regs1 : Registry) (info : SerialportInfo) :
    (closeFound regs1 info).2 = regs1 := by
  obtain ⟨sp, s, th⟩ := info
  unfold closeFound
  cases s with
  | none => exact closeJoin_snd _ _
  | some s' =>
      cases s' with
      | mk sf =>
          cases sf with
          | false => exact closeJoin_snd _ _
          | true => rfl

theorem closePort_snd (regs : Registry) (path : String) :
    (closePort regs path).2 = regs
    ∨ (closePort regs path).2 = removeReg regs path := by
  unfold closePort
  rcases lookupReg regs path with _ | info
  · left; rfl
  · right; exact closeFound_snd _ _

theorem forceClose_snd (regs : Registry) (path : String) :
    (forceClose regs path).2 = regs
    ∨ (forceClose regs path).2 = removeReg regs path := by
  unfold forceClose
  rcases lookupReg regs path with _ | info
  · left; rfl
  · right; exact closeFound_snd _ _

theorem openPort_snd (regs : Registry) (path : String) (baud : Nat)
    (db : Option DataBits) (fc : Option FlowControl) (pa : Option Parity)
    (sb : Option StopBits) (t : Option Nat)
    (os : PortConfig → Except String MockPort) :
    (openPort regs path baud db fc pa sb t os).2 = removeReg regs path
    ∨ ∃ port : MockPort,
        (openPort regs path baud db fc pa sb t os).2 =
          insertReg (removeReg regs path) path (freshOpenInfo port) := by
  unfold openPort
  rcases os (defaultedConfig baud db fc pa sb t) with e | port
  · left; rfl
  · right; exact ⟨port, rfl⟩

/-- C2 (amended): every command-surface operation other than `cancel_read`
(open, start_listening, stop_listening, close, force_close, close_all)
preserves the per-record invariant
`cancel_signal.is_some() == listener_task.is_some()` across the whole
registry. -/
theorem adminOps_preserve_invariant (op : AdminOp) (regs : Registry)
    (h : RegistryInv regs) : RegistryInv (applyAdminOp op regs).2 := by
  cases op with
  | openOp path baud db fc pa sb t os =>
      rcases openPort_snd regs path baud db fc pa sb t os with h2 | ⟨port, h2⟩ <;>
        simp only [applyAdminOp] <;> rw [h2]
      · exact registryInv_removeReg h
      · intro pr hpr
        simp only [insertReg, List.mem_cons] at hpr
        rcases hpr with hpr | hpr
        · rw [hpr]; rfl
        · exact h pr (mem_removeReg (mem_removeReg hpr))
  | startListeningOp path cf stf ns nh =>
      simp only [applyAdminOp, startListening, getSerialport]
      cases hl : lookupReg regs path with
      | none => exact h
      | some info =>
          have hinv : RecordInv info := h (path, info) (lookupReg_mem hl)
          exact registryInv_updateReg h
            (recordInv_startListeningBody cf stf ns nh hinv)
  | stopListeningOp path =>
      simp only [applyAdminOp, stopListening, getSerialport]
      cases hl : lookupReg regs path with
      | none => exact h
      | some info =>
          have hinv : RecordInv info := h (path, info) (lookupReg_mem hl)
          exact registryInv_updateReg h (recordInv_stopListeningBody hinv)
  | closeOp path =>
      rcases closePort_snd regs path with h2 | h2 <;>
        simp only [applyAdminOp] <;> rw [h2]
      · exact h
      · exact registryInv_removeReg h
  | forceCloseOp path =>
      rcases forceClose_snd regs path with h2 | h2 <;>
        simp only [applyAdminOp] <;> rw [h2]
      · exact h
      · exact registryInv_removeReg h
  | closeAllOp =>
      intro pr hpr
      simp [applyAdminOp, closeAll] at hpr

/-- C2 counterexample: starting from a state satisfying the invariant,
`cancel_read` clears the cancellation sender but leaves the listener thread
handle in place, so the resulting registry violates
`cancel_signal.is_some() == listener_task.is_some()`. -/
theorem cancelRead_breaks_invariant :
    RegistryInv listeningRegistry
    ∧ ¬ RegistryInv (cancelRead listeningRegistry "COM1").2 := by
  constructor
  · decide
  · decide

/-- Witness for the amended C2 theorem at a concrete operation and state:
`stop_listening` on the listening registry preserves the invariant. -/
theorem adminOps_preserve_invariant_witness :
    RegistryInv (applyAdminOp (AdminOp.stopListeningOp "COM1")
      listeningRegistry).2 :=
  adminOps_preserve_invariant (AdminOp.stopListeningOp "COM1")
    listeningRegistry (by decide)

theorem closeAllLoop_append (regs : Registry) :
    ∀ acc : List String,
      closeAllLoop regs acc =
        acc ++ regs.flatMap (fun pr => recordCloseErrors pr.1 pr.2) := by
  induction regs with
  | nil => intro acc; simp [closeAllLoop]
  | cons hd tl ih =>
      intro acc
      obtain ⟨path, info⟩ := hd
      simp [closeAllLoop, ih, List.append_assoc]

/-- C7: `close_all` empties the registry entirely (no partial entry is ever
retained), never aborts on the first per-port failure — the collected error
list is exactly the concatenation of every port's failures, in registry
order, so no later port's result is lost — and the aggregate result is a
success iff that list is empty. -/
theorem closeAll_spec (regs : Registry) :
    (closeAll regs).2 = []
    ∧ closeAllLoop regs [] =
        regs.flatMap (fun pr => recordCloseErrors pr.1 pr.2)
    ∧ ((closeAll regs).1 = .ok () ↔
        regs.flatMap (fun pr => recordCloseErrors pr.1 pr.2) = []) := by
  refine ⟨rfl, by simpa using closeAllLoop_append regs [], ?_⟩
  simp only [closeAll]
  rw [closeAllLoop_append regs []]
  cases h : regs.flatMap (fun pr => recordCloseErrors pr.1 pr.2) with
  | nil => simp
  | cons e es => simp

/-- C10: When `open` is called with the optional configuration arguments
omitted, the port is configured with defaults of 8 data bits, no flow
control, no parity, 1 stop bit, and a 200 ms read timeout. -/
theorem open_defaults (regs : Registry) (path : String) (baud : Nat) :
    (openPort regs path baud none none none none none mockOsOpen).1 = .ok ()
    ∧ lookupReg (openPort regs path baud none none none none none
        mockOsOpen).2 path =
      some { serialport :=
               { config := { baudRate := baud
                             dataBits := DataBits.eight
                             flowControl := FlowControl.none
                             parity := Parity.none
                             stopBits := StopBits.one
                             timeoutMs := 200 }
                 buffer := [] }
             sender := none
             threadHandle := none } := by
  refine ⟨rfl, ?_⟩
  simp [openPort, defaultedConfig, freshOpenInfo, mockOsOpen, insertReg,
    lookupReg]

/-- C1 counterexample: with "COM1" already open and listening in the
registry, a second `open` without an intervening `close` does not return an
`AlreadyOpen` error — it succeeds — and the registry entry afterwards
differs from the first opened state (it is not retained). -/
theorem open_second_call_replaces :
    (openPort listeningRegistry "COM1" 115200 none none none none none
      mockOsOpen).1 = .ok ()
    ∧ lookupReg (openPort listeningRegistry "COM1" 115200 none none none none
        none mockOsOpen).2 "COM1" ≠ lookupReg listeningRegistry "COM1" := by
  refine ⟨rfl, ?_⟩
  decide

/-- C1 (amended): a second `open` on an id already present in the registry
never returns `AlreadyOpen`; it force-closes the existing entry and, when the
OS open succeeds, replaces the registry entry with a freshly opened record
(the requested configuration, an empty queue, and no listener), discarding
the first opened state. -/
theorem open_on_present_id (regs : Registry) (path : String) (baud : Nat)
    (db : Option DataBits) (fc : Option FlowControl) (pa : Option Parity)
    (sb : Option StopBits) (t : Option Nat) (oldInfo : SerialportInfo)
    (_h : lookupReg regs path = some oldInfo) :
    (openPort regs path baud db fc pa sb t mockOsOpen).1 = .ok ()
    ∧ lookupReg (openPort regs path baud db fc pa sb t mockOsOpen).2 path =
        some (freshOpenInfo
          { config := defaultedConfig baud db fc pa sb t, buffer := [] }) := by
  refine ⟨rfl, ?_⟩
  simp [openPort, mockOsOpen, insertReg, lookupReg]

/-- Witness for the amended C1 theorem at a concrete listening registry. -/
theorem open_on_present_id_witness :
    lookupReg listeningRegistry "COM1" = some listeningInfo
    ∧ ((openPort listeningRegistry "COM1" 115200 none none none none (some 50)
          mockOsOpen).1 = .ok ()
       ∧ lookupReg (openPort listeningRegistry "COM1" 115200 none none none
            none (some 50) mockOsOpen).2 "COM1" =
          some (freshOpenInfo
            { config := defaultedConfig 115200 none none none none (some 50)
              buffer := [] })) :=
  ⟨by decide,
   open_on_present_id listeningRegistry "COM1" 115200 none none none none
     (some 50) listeningInfo (by decide)⟩

theorem readBinaryLoop_settled (tmsg fuel target : Nat) (cfg : PortConfig)
    (B : List UInt8) (hB : B ≠ []) :
    (readBinaryLoop tmsg fuel { config := cfg, buffer := [] } B target).1 =
      .ok B := by
  cases fuel with
  | zero =>
      rw [readBinaryLoop]
      split <;> rfl
  | succ f =>
      rw [readBinaryLoop]
      split
      · simp [MockPort.readBytes, List.isEmpty_eq_true, hB]
      · rfl

theorem readBinaryLoop_drains (tmsg : Nat) (fuel : Nat) (hfuel : 1 ≤ fuel)
    (cfg : PortConfig) (B : List UInt8) (hB : B ≠ []) (target : Nat)
    (hlen : B.length ≤ target) :
    (readBinaryLoop tmsg fuel { config := cfg, buffer := B } [] target).1 =
      .ok B := by
  obtain ⟨fuel', rfl⟩ : ∃ f, fuel = f + 1 := ⟨fuel - 1, by omega⟩
  have hBpos : 0 < B.length := List.length_pos.mpr hB
  have htarget : 0 < target := lt_of_lt_of_le hBpos hlen
  rw [readBinaryLoop]
  rw [if_pos (by simpa using htarget)]
  simp only [List.length_nil, Nat.sub_zero]
  have hread : MockPort.readBytes { config := cfg, buffer := B } target
      = some (B, { config := cfg, buffer := [] }) := by
    unfold MockPort.readBytes
    rw [if_neg (by simpa [List.isEmpty_eq_true] using hB)]
    rw [List.take_of_length_le hlen, List.drop_of_length_le hlen]
  rw [hread]
  show (if 0 < B.length then
          readBinaryLoop tmsg fuel' { config := cfg, buffer := [] }
            ([] ++ B) target
        else (Except.ok [], { config := cfg, buffer := [] })).1 = Except.ok B
  rw [if_pos hBpos, List.nil_append]
  exact readBinaryLoop_settled tmsg fuel' target cfg B hB

/-- C3 counterexample: after opening a port and writing the empty byte
sequence (`write` of the empty string), `read_binary` with a large buffer
(1024) and timeout (1000 ms) does not return the written empty sequence —
it fails with the timeout error. -/
theorem roundtrip_fails_on_empty :
    (readBinaryPort
        (writePort
            (openPort [] "COM1" 9600 none none none none none mockOsOpen).2
            "COM1" "").2
        "COM1" (some 1000) (some 1024)).1
      = .error (.string "no data received within 1000 ms") := by
  decide

/-- C3 (amended): for every nonempty byte sequence `B`, opening a port,
writing `B`, and then calling `read_binary` with a sufficiently large buffer
(`B.length ≤ target`) and a positive time budget — with the loopback mock
transport delivering exactly the written bytes — returns exactly `B`,
preserving both content and length. -/
theorem write_read_roundtrip (regs : Registry) (path : String)
    (B : List UInt8) (t target : Nat) (hB : B ≠ []) (ht : 1 ≤ t)
    (hlen : B.length ≤ target) :
    (readBinaryPort
        (writeBinaryPort
            (openPort regs path 9600 none none none none none mockOsOpen).2
            path B).2
        path (some t) (some target)).1
      = .ok B := by
  simp only [openPort, defaultedConfig, mockOsOpen, insertReg,
    writeBinaryPort, getSerialport, lookupReg, if_pos, updateReg,
    writeBinaryBody, MockPort.writeBytes, List.nil_append, readBinaryPort,
    readBinaryBody, freshOpenInfo]
  exact readBinaryLoop_drains t t ht _ B hB target hlen

/-- Witness for the amended C3 theorem: the bytes `[72, 105]` round-trip. -/
theorem write_read_roundtrip_witness :
    (readBinaryPort
        (writeBinaryPort
            (openPort [] "COM1" 9600 none none none none none mockOsOpen).2
            "COM1" [72, 105]).2
        "COM1" (some 1000) (some 1024)).1
      = .ok [72, 105] :=
  write_read_roundtrip [] "COM1" [72, 105] 1000 1024 (by decide) (by decide)
    (by decide)

/-- C5 counterexample: the event-name derivation is not injective — the
distinct port ids "a.b" and "a-b" derive identical read and disconnected
event names. -/
theorem eventName_collision :
    ("a.b" : String) ≠ "a-b"
    ∧ readEventName "a.b" = readEventName "a-b"
    ∧ disconnectedEventName "a.b" = disconnectedEventName "a-b" := by
  refine ⟨by decide, rfl, rfl⟩

theorem sanitizeChar_ne (c : Char) :
    sanitizeChar c ≠ '.' ∧ sanitizeChar c ≠ '/' := by
  unfold sanitizeChar
  by_cases h1 : c = '.'
  · simp [h1]
  · by_cases h2 : c = '/'
    · simp [h1, h2]
    · simp [h1, h2]

/-- C5 (amended): the event-name derivation is a deterministic function of
the port id that sanitizes path separators — no '.' or '/' ever occurs in a
derived read or disconnected event name — but it is not injective (see the
counterexample): ids differing only in '.', '/' and '-' collide. -/
theorem eventNames_sanitized (path : String) :
    (∀ c ∈ (readEventName path).toList, c ≠ '.' ∧ c ≠ '/')
    ∧ (∀ c ∈ (disconnectedEventName path).toList, c ≠ '.' ∧ c ≠ '/') := by
  constructor
  · intro c hc
    have hc2 : c ∈ ("plugin-serialplugin-read-".toList
        ++ (path.toList.map sanitizeChar)) := hc
    rcases List.mem_append.mp hc2 with h | h
    · have hall : ∀ x ∈ "plugin-serialplugin-read-".toList,
          x ≠ '.' ∧ x ≠ '/' := by decide
      exact hall c h
    · rcases List.mem_map.mp h with ⟨a, _, rfl⟩
      exact sanitizeChar_ne a
  · intro c hc
    have hc2 : c ∈ ("plugin-serialplugin-disconnected-".toList
        ++ (path.toList.map sanitizeChar)) := hc
    rcases List.mem_append.mp hc2 with h | h
    · have hall : ∀ x ∈ "plugin-serialplugin-disconnected-".toList,
          x ≠ '.' ∧ x ≠ '/' := by decide
      exact hall c h
    · rcases List.mem_map.mp h with ⟨a, _, rfl⟩
      exact sanitizeChar_ne a

/-- Witness for the amended C5 theorem at a concrete id and character. -/
theorem eventNames_sanitized_witness :
    ('p' : Char) ≠ '.' ∧ ('p' : Char) ≠ '/' :=
  (eventNames_sanitized "a.b").1 'p' (by decide)

/-- C4 counterexample: `available_ports_direct` aborts (the `.expect(...)`
panic) when an underlying platform command cannot be executed, instead of
returning a successful (possibly empty) result. -/
theorem availablePortsDirect_aborts :
    availablePortsDirect none (some "") = .panics
    ∧ ¬ ∃ v, availablePortsDirect none (some "") = .returns v := by
  refine ⟨rfl, ?_⟩
  rintro ⟨v, hv⟩
  have h2 : (ExecResult.panics :
      ExecResult (Except Error (List (String × List (String × String)))))
      = .returns v := hv
  cases h2

/-- C4 (amended): `available_ports` never fails — for every enumeration
outcome it returns `Ok`, and on an enumeration error it returns the empty
mapping — and `available_ports_direct` returns `Ok` for every pair of
command outputs, but aborts (panics) when an underlying command cannot be
executed. -/
theorem discovery_never_fails :
    (∀ enumResult, ∃ l, availablePorts enumResult = .ok l)
    ∧ (∀ e, availablePorts (.error e) = .ok [])
    ∧ (∀ usb dev, ∃ l,
        availablePortsDirect (some usb) (some dev) = .returns (.ok l))
    ∧ availablePortsDirect none none = .panics := by
  refine ⟨fun er => ⟨_, rfl⟩, fun e => rfl, fun usb dev => ⟨_, rfl⟩, rfl⟩

/-- C6 counterexample: a port discovered by `available_ports_direct` carries
only the `type` attribute — the keys `vid`, `pid`, `serial_number`,
`manufacturer` and `product` are absent from its attribute mapping. -/
theorem direct_attrs_missing_keys :
    availablePortsDirect (some "") (some "ttyUSB0")
      = .returns (.ok [("/dev/ttyUSB0", [("type", "USB")])])
    ∧ lookupReg [(("type" : String), ("USB" : String))] "vid" = none
    ∧ lookupReg [(("type" : String), ("USB" : String))] "serial_number"
        = none := by
  refine ⟨by decide, rfl, rfl⟩

theorem lookup_insertReg_of_ne {β : Type} (m : List (String × β))
    (k k' : String) (v : β) (hne : k ≠ k') :
    lookupReg (insertReg m k v) k' = lookupReg (removeReg m k) k' := by
  simp [insertReg, lookupReg, hne]

theorem lookup_insertReg_self {β : Type} (m : List (String × β))
    (k : String) (v : β) :
    lookupReg (insertReg m k v) k = some v := by
  simp [insertReg, lookupReg]

theorem getPortInfo_has_six_keys (t : SerialPortType) :
    (lookupReg (getPortInfo t) "type").isSome
    ∧ (lookupReg (getPortInfo t) "vid").isSome
    ∧ (lookupReg (getPortInfo t) "pid").isSome
    ∧ (lookupReg (getPortInfo t) "serial_number").isSome
    ∧ (lookupReg (getPortInfo t) "manufacturer").isSome
    ∧ (lookupReg (getPortInfo t) "product").isSome := by
  cases t with
  | usbPort vid pid sn mf pd =>
      refine ⟨?_, ?_, ?_, ?_, ?_, ?_⟩ <;>
        simp [getPortInfo, insertReg, removeReg, lookupReg]
  | bluetoothPort =>
      refine ⟨?_, ?_, ?_, ?_, ?_, ?_⟩ <;> decide
  | pciPort =>
      refine ⟨?_, ?_, ?_, ?_, ?_, ?_⟩ <;> decide
  | unknown =>
      refine ⟨?_, ?_, ?_, ?_, ?_, ?_⟩ <;> decide

/-- The shape of every attribute map produced by the shell-probe parsers:
exactly one `type` attribute. -/
def TypeOnly (pr : String × List (String × String)) : Prop :=
  ∃ v, pr.2 = [("type", v)]

theorem typeOnly_usbLineStep (acc : List (String × List (String × String)))
    (line : String) (hacc : ∀ pr ∈ acc, TypeOnly pr) :
    ∀ pr ∈ usbLineStep acc line, TypeOnly pr := by
  intro pr hpr
  unfold usbLineStep at hpr
  by_cases hc : (containsSub line "Serial" || containsSub line "USB") = true
  · rw [if_pos hc] at hpr
    rcases List.mem_cons.mp hpr with h | h
    · exact ⟨USB, by rw [h]⟩
    · exact hacc pr (mem_removeReg h)
  · rw [if_neg hc] at hpr
    exact hacc pr hpr

theorem typeOnly_insert_tail
    {acc : List (String × List (String × String))} {pr : String × List (String × String)}
    (hacc : ∀ q ∈ acc, TypeOnly q) (k v : String)
    (hpr : pr ∈ insertReg acc k [("type", v)]) : TypeOnly pr := by
  rcases List.mem_cons.mp hpr with h | h
  · exact ⟨v, by rw [h]⟩
  · exact hacc pr (mem_removeReg h)

theorem typeOnly_devStep1 (line : String)
    (acc : List (String × List (String × String)))
    (hacc : ∀ pr ∈ acc, TypeOnly pr) :
    ∀ pr ∈ devStep1 line acc, TypeOnly pr := by
  intro pr hpr
  unfold devStep1 at hpr
  revert hpr
  split
  · intro hpr; exact typeOnly_insert_tail hacc _ _ hpr
  · intro hpr; exact hacc pr hpr

theorem typeOnly_devStep2 (line : String)
    (acc : List (String × List (String × String)))
    (hacc : ∀ pr ∈ acc, TypeOnly pr) :
    ∀ pr ∈ devStep2 line acc, TypeOnly pr := by
  intro pr hpr
  unfold devStep2 at hpr
  revert hpr
  split
  · intro hpr; exact typeOnly_insert_tail hacc _ _ hpr
  · intro hpr; exact hacc pr hpr

theorem typeOnly_devStep3 (line : String)
    (acc : List (String × List (String × String)))
    (hacc : ∀ pr ∈ acc, TypeOnly pr) :
    ∀ pr ∈ devStep3 line acc, TypeOnly pr := by
  intro pr hpr
  unfold devStep3 at hpr
  revert hpr
  split
  · intro hpr; exact typeOnly_insert_tail hacc _ _ hpr
  · intro hpr; exact hacc pr hpr

theorem typeOnly_devLineStep (acc : List (String × List (String × String)))
    (line : String) (hacc : ∀ pr ∈ acc, TypeOnly pr) :
    ∀ pr ∈ devLineStep acc line, TypeOnly pr := by
  intro pr hpr
  unfold devLineStep at hpr
  exact typeOnly_devStep3 line _
    (typeOnly_devStep2 line _ (typeOnly_devStep1 line acc hacc)) pr hpr

theorem typeOnly_foldl_usb (lines : List String) :
    ∀ acc, (∀ pr ∈ acc, TypeOnly pr) →
      ∀ pr ∈ lines.foldl usbLineStep acc, TypeOnly pr := by
  induction lines with
  | nil => intro acc hacc; exact hacc
  | cons hd tl ih =>
      intro acc hacc
      exact ih (usbLineStep acc hd) (typeOnly_usbLineStep acc hd hacc)

theorem typeOnly_foldl_dev (lines : List String) :
    ∀ acc, (∀ pr ∈ acc, TypeOnly pr) →
      ∀ pr ∈ lines.foldl devLineStep acc, TypeOnly pr := by
  induction lines with
  | nil => intro acc hacc; exact hacc
  | cons hd tl ih =>
      intro acc hacc
      exact ih (devLineStep acc hd) (typeOnly_devLineStep acc hd hacc)

theorem getPortInfo_usb_values (vid pid : Nat)
    (sn mf pd : Option String) :
    lookupReg (getPortInfo (SerialPortType.usbPort vid pid sn mf pd)) "type"
        = some USB
    ∧ lookupReg (getPortInfo (SerialPortType.usbPort vid pid sn mf pd)) "vid"
        = some (toString vid)
    ∧ lookupReg (getPortInfo (SerialPortType.usbPort vid pid sn mf pd)) "pid"
        = some (toString pid)
    ∧ lookupReg (getPortInfo (SerialPortType.usbPort vid pid sn mf pd))
        "serial_number" = some (sn.getD UNKNOWN)
    ∧ lookupReg (getPortInfo (SerialPortType.usbPort vid pid sn mf pd))
        "manufacturer" = some (mf.getD UNKNOWN)
    ∧ lookupReg (getPortInfo (SerialPortType.usbPort vid pid sn mf pd))
        "product" = some (pd.getD UNKNOWN) := by
  refine ⟨?_, ?_, ?_, ?_, ?_, ?_⟩ <;>
    simp [getPortInfo, insertReg, removeReg, lookupReg]

/-- C6 (amended): every port discovered by `available_ports` has an
attribute mapping containing all six keys (`type`, `vid`, `pid`,
`serial_number`, `manufacturer`, `product`), each set to "Unknown" when not
resolvable — a USB port's absent serial number, manufacturer or product
defaults to "Unknown", and a Bluetooth/PCI/unknown port keeps all five
metadata keys at "Unknown" — but every port discovered by
`available_ports_direct` carries an attribute mapping with only the `type`
key. -/
theorem discovery_attr_keys :
    (∀ t : SerialPortType,
      (lookupReg (getPortInfo t) "type").isSome
      ∧ (lookupReg (getPortInfo t) "vid").isSome
      ∧ (lookupReg (getPortInfo t) "pid").isSome
      ∧ (lookupReg (getPortInfo t) "serial_number").isSome
      ∧ (lookupReg (getPortInfo t) "manufacturer").isSome
      ∧ (lookupReg (getPortInfo t) "product").isSome)
    ∧ (∀ vid pid : Nat, ∀ sn mf pd : Option String,
        lookupReg (getPortInfo (SerialPortType.usbPort vid pid sn mf pd))
          "serial_number" = some (sn.getD UNKNOWN)
        ∧ lookupReg (getPortInfo (SerialPortType.usbPort vid pid sn mf pd))
            "manufacturer" = some (mf.getD UNKNOWN)
        ∧ lookupReg (getPortInfo (SerialPortType.usbPort vid pid sn mf pd))
            "product" = some (pd.getD UNKNOWN))
    ∧ MetadataUnknown SerialPortType.bluetoothPort
    ∧ MetadataUnknown SerialPortType.pciPort
    ∧ MetadataUnknown SerialPortType.unknown
    ∧ lookupReg (getPortInfo SerialPortType.unknown) "type" = some UNKNOWN
    ∧ (∀ usb dev l, availablePortsDirect (some usb) (some dev)
          = .returns (.ok l) → ∀ pr ∈ l, ∃ v, pr.2 = [("type", v)]) := by
  refine ⟨getPortInfo_has_six_keys,
    fun vid pid sn mf pd => (getPortInfo_usb_values vid pid sn mf pd).2.2.2,
    by decide, by decide, by decide, by decide, ?_⟩
  intro usb dev l hl pr hpr
  have hl' : (rustLines dev).foldl devLineStep
      ((rustLines usb).foldl usbLineStep []) = l := by
    have := hl
    unfold availablePortsDirect at this
    cases this
    rfl
  rw [← hl'] at hpr
  exact typeOnly_foldl_dev (rustLines dev) _
    (typeOnly_foldl_usb (rustLines usb) [] (by intro q hq; cases hq)) pr hpr

/-- Witness for the amended C6 theorem: a USB port reported by the driver
with no metadata has its serial number defaulted to "Unknown", and a
shell-probed `/dev/ttyUSB0` has only `type`. -/
theorem discovery_attr_keys_witness :
    lookupReg (getPortInfo (SerialPortType.usbPort 1027 24577 none none
      none)) "serial_number" = some ((none : Option String).getD UNKNOWN)
    ∧ (∃ v, (("/dev/ttyUSB0", [(("type" : String), ("USB" : String))]) :
        String × List (String × String)).2 = [("type", v)]) :=
  ⟨(discovery_attr_keys.2.1 1027 24577 none none none).1,
   discovery_attr_keys.2.2.2.2.2.2 "" "ttyUSB0"
     [("/dev/ttyUSB0", [("type", "USB")])]
     (by decide) ("/dev/ttyUSB0", [("type", "USB")]) (by decide)⟩

theorem flushStep_emits (c : List UInt8) (w : Bool) (d : List UInt8)
    (h : (flushStep c w).emittedRead = some d) :
    d ≠ [] ∧ (flushStep c w).combined = [] := by
  cases w with
  | false => simp [flushStep] at h
  | true =>
      by_cases hc : c.length = 0
      · simp [flushStep, hc] at h
      · have hcd : c = d := by
          have h2 := h
          simp [flushStep, hc] at h2
          exact h2
        subst hcd
        refine ⟨fun hnil => hc (by rw [hnil]; rfl), ?_⟩
        simp [flushStep, hc]

/-- C9: in every iteration of the background listener loop, no data event is
emitted when the accumulated buffer is zero-length, and whenever a data
event is emitted its payload is nonempty and the accumulation buffer is
cleared immediately after the flush — so no empty event is delivered and no
byte is delivered twice. -/
theorem listener_flush_discipline (combined : List UInt8)
    (recv : RecvOutcome) (readRes : ReadOutcome) (w : Bool) (d : List UInt8)
    (h : (listenIteration combined recv readRes w).emittedRead = some d) :
    d ≠ [] ∧ (listenIteration combined recv readRes w).combined = [] := by
  cases recv with
  | gotSignal => simp [listenIteration] at h
  | senderDropped => simp [listenIteration] at h
  | empty =>
      cases readRes with
      | ioError m => simp [listenIteration] at h
      | timedOut => exact flushStep_emits combined w d h
      | ok bytes => exact flushStep_emits (combined ++ bytes) w d h

/-- Witness for the C9 theorem: a one-byte accumulation flushed at an
elapsed window. -/
theorem listener_flush_discipline_witness :
    ([0] : List UInt8) ≠ []
    ∧ (listenIteration [0] RecvOutcome.empty ReadOutcome.timedOut
        true).combined = [] :=
  listener_flush_discipline [0] RecvOutcome.empty ReadOutcome.timedOut true
    [0] (by decide)

theorem getSerialport_not_found {α : Type} (regs : Registry) (path : String)
    (f : SerialportInfo → Except Error α × SerialportInfo)
    (h : lookupReg regs path = none) :
    getSerialport regs path f = (.error (notFoundErr path), regs) := by
  unfold getSerialport
  rw [h]

theorem closePort_not_found (regs : Registry) (path : String)
    (h : lookupReg regs path = none) :
    closePort regs path = (.error (notOpenErr path), regs) := by
  unfold closePort
  rw [h]

/-- C8: for every port id absent from the registry, every command that
references a port id — all of them except `open`, `available_ports`,
`available_ports_direct`, `force_close` and `managed_ports` — returns a
`NotFound` error (the "not found" message from the shared lookup, or the
"is not open" message from `close`) and leaves the registry unchanged. -/
theorem absent_id_not_found (cmd : Cmd) (path : String) (regs : Registry)
    (h : lookupReg regs path = none) :
    ((runCmd cmd path regs).1 = .error (notFoundErr path)
      ∨ (runCmd cmd path regs).1 = .error (notOpenErr path))
    ∧ (runCmd cmd path regs).2 = regs := by
  cases cmd <;>
    simp [runCmd, tagResult, cancelRead, stopListening, startListening,
      readPort, readBinaryPort, writePort, writeBinaryPort,
      getSerialport_not_found, closePort_not_found, h]

/-- Witness for the C8 theorem at a concrete command, id and registry. -/
theorem absent_id_not_found_witness :
    ((runCmd Cmd.readCtsCmd "COM9" []).1 = .error (notFoundErr "COM9")
      ∨ (runCmd Cmd.readCtsCmd "COM9" []).1 = .error (notOpenErr "COM9"))
    ∧ (runCmd Cmd.readCtsCmd "COM9" []).2 = [] :=
  absent_id_not_found Cmd.readCtsCmd "COM9" [] (by decide)

end SerialPlugin
